import Mathlib

/-!
Verification of `ethercat_driver_ros2` (`ethercat_interface/ec_master.hpp`)
against its natural-language specification.

The header defines two classes:

* `SDORequest` — a one-shot asynchronous mailbox (SDO) read request against a
  slave device.  All of its member functions are defined inline in the header
  and are embedded here directly from the source.
* `EcMaster` — the cyclic bus-master engine.  Only `stop()`,
  `setCtrlFrequency()`, `getInterval()` and the field initializers are defined
  in the header; the bodies of `run()`, `update()`, `activate()`,
  `registerPDOInDomain()`, `elapsedCycles()` and `elapsedTime()` live in a
  `.cpp` file that is not part of the sources.  Those are modelled from the
  spec, each with a doc comment saying so.

The underlying IgH EtherCAT library (`ecrt.h`) is an external dependency
treated as a black box; its request objects carry a state in
{UNUSED, BUSY, SUCCESS, ERROR} (per the spec's Mailbox Request data model),
start in UNUSED, move to BUSY when a read is queued, and expose a raw data
buffer.  Machine integers are modelled as `Nat`; the transport byte buffer as
a `List Nat` of byte values.  The targets of this driver (Linux x86-64 /
ARM64) are little-endian, so `memcpy` into a `uint16_t` reads the first two
buffer bytes little-endian.
-/

namespace EthercatInterface

/-- Request state of an `ec_sdo_request_t` in the external `ecrt` library
(`EC_REQUEST_UNUSED`, `EC_REQUEST_BUSY`, `EC_REQUEST_SUCCESS`,
`EC_REQUEST_ERROR`). -/
inductive EcRequestState where
  | unused
  | busy
  | success
  | err
deriving DecidableEq, Repr

/-- An `ec_sdo_request_t` object of the external `ecrt` transaction layer:
its lifecycle state and the transport data buffer backing it. -/
structure EcSdoRequest where
  state : EcRequestState
  data : List Nat
deriving DecidableEq, Repr

/-- Model of `ecrt_sdo_request_state`: returns the request's current state. -/
def ecrt_sdo_request_state (r : EcSdoRequest) : EcRequestState :=
  r.state

/-- Model of `ecrt_sdo_request_read`: arms the request (it transitions toward
BUSY, to be picked up by the transaction layer on the next bus cycle). -/
def ecrt_sdo_request_read (r : EcSdoRequest) : EcSdoRequest :=
  { r with state := EcRequestState.busy }

/-- Model of `ecrt_sdo_request_data`: the raw transport buffer. -/
def ecrt_sdo_request_data (r : EcSdoRequest) : List Nat :=
  r.data

/-- A slave configuration handle (`ec_slave_config_t`) of the external layer:
whether the library can allocate an SDO request object for it, and the
transport buffer a freshly created request is backed by. -/
structure EcSlaveConfig where
  can_create : Bool
  buffer : List Nat
deriving DecidableEq, Repr

/-- Model of `ecrt_slave_config_create_sdo_request`: on success returns a
fresh request object in the UNUSED state; on allocation failure returns NULL
(modelled as `none`). -/
def ecrt_slave_config_create_sdo_request (sc : EcSlaveConfig)
    (index : Nat) (subindex : Nat) (size : Nat) : Option EcSdoRequest :=
  if sc.can_create then
    some { state := EcRequestState.unused, data := sc.buffer }
  else
    none

/-- Modelled from the spec: `EcSlave` is declared in `ec_slave.hpp`, which is
not among the sources.  The spec says the Mailbox Request Manager "delivers
decoded results back to the owning device's configuration-value handler,
keyed by object index"; the model records each delivered
(object index, value) pair. -/
structure EcSlave where
  receivedSDO : List (Nat × Nat) := []
deriving DecidableEq, Repr

/-- Modelled from the spec: the device's configuration-value handler records
the delivery keyed by object index. -/
def EcSlave.processSDO (s : EcSlave) (index : Nat) (value : Nat) : EcSlave :=
  { s with receivedSDO := s.receivedSDO ++ [(index, value)] }

/-- The `SDORequest` class of `ec_master.hpp`: the stored `ec_sdo_request_t*`
handle (non-null by construction, so modelled as the object itself), the
expected byte size, object index, subindex, and the owning slave. -/
structure SDORequest where
  request_ : EcSdoRequest
  size_ : Nat
  index_ : Nat
  subindex_ : Nat
  slave_ : EcSlave
deriving DecidableEq, Repr

/-- The `SDORequest` constructor: calls
`ecrt_slave_config_create_sdo_request(slave_config, index, subindex, size)`
for the member initializer of `request_` and throws
`std::runtime_error("Failed to create SDO request")` when it returned NULL.
The throw is modelled as `Except.error`. -/
def SDORequest.make (slave_config : EcSlaveConfig) (index : Nat)
    (subindex : Nat) (size : Nat) (slave : EcSlave) :
    Except String SDORequest :=
  match ecrt_slave_config_create_sdo_request slave_config index subindex size with
  | some req =>
      Except.ok { request_ := req, size_ := size, index_ := index,
                  subindex_ := subindex, slave_ := slave }
  | none => Except.error "Failed to create SDO request"

/-- `SDORequest::initiateRead`: `ecrt_sdo_request_read(request_)`. -/
def SDORequest.initiateRead (r : SDORequest) : SDORequest :=
  { r with request_ := ecrt_sdo_request_read r.request_ }

/-- `SDORequest::isComplete`:
`ecrt_sdo_request_state(request_) == EC_REQUEST_SUCCESS`. -/
def SDORequest.isComplete (r : SDORequest) : Bool :=
  ecrt_sdo_request_state r.request_ = EcRequestState.success

/-- `SDORequest::isUnsed` (sic):
`ecrt_sdo_request_state(request_) == EC_REQUEST_UNUSED`.  The source carries
the comment "Change to EC_REQUEST_BUSY", but as written it tests UNUSED. -/
def SDORequest.isUnsed (r : SDORequest) : Bool :=
  ecrt_sdo_request_state r.request_ = EcRequestState.unused

/-- `SDORequest::getData`: `ecrt_sdo_request_data(request_)`. -/
def SDORequest.getData (r : SDORequest) : List Nat :=
  ecrt_sdo_request_data r.request_

/-- `memcpy(&value, data, sizeof(uint16_t))` into a `uint16_t` on the
driver's little-endian targets: the first two buffer bytes read
little-endian.  A missing byte reads as 0 and each byte is taken mod 256. -/
def readU16le (data : List Nat) : Nat :=
  data.getD 0 0 % 256 + 256 * (data.getD 1 0 % 256)

/-- `SDORequest::processData`: copies `sizeof(uint16_t)` bytes out of
`ecrt_sdo_request_data(request_)` into `value` and calls
`slave_->processSDO(index_, value)`.  The stored `size_` is not consulted. -/
def SDORequest.processData (r : SDORequest) : SDORequest :=
  { r with slave_ :=
      r.slave_.processSDO r.index_ (readU16le (ecrt_sdo_request_data r.request_)) }

/-- `SDORequest::getIndex`. -/
def SDORequest.getIndex (r : SDORequest) : Nat :=
  r.index_

/-- `SDORequest::getSubindex`. -/
def SDORequest.getSubindex (r : SDORequest) : Nat :=
  r.subindex_

/-- One entry of a domain's PDO registration array (`ec_pdo_entry_reg_t`):
the target slave's bus address and the registered channel identifier. -/
structure PdoEntryReg where
  bus_alias : Nat
  position : Nat
  channel : Nat
deriving DecidableEq, Repr

/-- `EcMaster::DomainInfo`: per-domain data.  The model keeps the
`domain_regs` registration array, whose source comment reads
"do not modify after active(), or may invalidate". -/
structure DomainInfo where
  domain_regs : List PdoEntryReg := []
deriving DecidableEq, Repr

/-- The `EcMaster` class state.  Field defaults follow the in-class
initializers of the header: `running_ = false`, `update_counter_ = 0`,
`check_state_frequency_ = 10`.  `interval_` has no initializer in the source
(indeterminate until `setCtrlFrequency`); the model fixes it to 0, and no
claim depends on its pre-initialization value.  Timestamps are nanosecond
counts.  `active_` is modelled from the spec: `activate()` transitions the
engine from Configuring to Active and "calling twice is an error (reports
already-active)"; the flag itself lives in the `.cpp` file that is not among
the sources.  `state_check_log` is specification instrumentation: the source's
state-check pass prints transition messages, which the model records as the
cycle number at which the pass ran. -/
structure EcMaster where
  running_ : Bool := false
  start_t_ : Nat := 0
  curr_t_ : Nat := 0
  sdo_requests_ : List SDORequest := []
  domain_info_ : List (Nat × DomainInfo) := []
  slave_info_ : List Nat := []
  update_counter_ : Nat := 0
  check_state_frequency_ : Nat := 10
  interval_ : Nat := 0
  active_ : Bool := false
  state_check_log : List Nat := []
deriving DecidableEq, Repr

/-- A freshly constructed `EcMaster` (all in-class field initializers). -/
def EcMaster.init : EcMaster :=
  {}

/-- `EcMaster::stop`: `{running_ = false;}` — defined inline in the header. -/
def EcMaster.stop (m : EcMaster) : EcMaster :=
  { m with running_ := false }

/-- `EcMaster::setCtrlFrequency`: `interval_ = 1000000000.0 / frequency;`.
The `double` division is modelled as exact rational arithmetic; storing the
result into the `uint32_t` member `interval_` truncates toward zero (for a
non-negative quotient, the floor) and is reduced mod 2^32. -/
def EcMaster.setCtrlFrequency (m : EcMaster) (frequency : ℚ) : EcMaster :=
  { m with interval_ := (Int.floor ((1000000000 : ℚ) / frequency)).toNat % 2 ^ 32 }

/-- `EcMaster::getInterval`: `{return interval_;}`. -/
def EcMaster.getInterval (m : EcMaster) : Nat :=
  m.interval_

/-- Modelled from the spec: `EcMaster::elapsedCycles` is defined in the
missing `.cpp`; the header documents it as "number of EtherCAT updates since
calling run", i.e. the value of `update_counter_`. -/
def EcMaster.elapsedCycles (m : EcMaster) : Nat :=
  m.update_counter_

/-- Modelled from the spec: `EcMaster::elapsedTime` is defined in the missing
`.cpp`; the header documents it as "time of last ethercat update, since
calling run" — the span from `start_t_` to `curr_t_`, in nanoseconds. -/
def EcMaster.elapsedTime (m : EcMaster) : Nat :=
  m.curr_t_ - m.start_t_

/-- Look up a domain in the `domain_info_` map (a missing key denotes a
fresh, empty `DomainInfo`, as `std::map::operator[]` would create). -/
def lookupDomain (ds : List (Nat × DomainInfo)) (idx : Nat) : DomainInfo :=
  match ds with
  | [] => {}
  | (k, d) :: rest => if k = idx then d else lookupDomain rest idx

/-- Apply an update to one domain of the `domain_info_` map, inserting a
fresh `DomainInfo` when the index is absent. -/
def updateDomain (ds : List (Nat × DomainInfo)) (idx : Nat)
    (f : DomainInfo → DomainInfo) : List (Nat × DomainInfo) :=
  match ds with
  | [] => [(idx, f {})]
  | (k, d) :: rest =>
      if k = idx then (k, f d) :: rest else (k, d) :: updateDomain rest idx f

/-- Modelled from the spec: `EcMaster::registerPDOInDomain` is defined in the
missing `.cpp`.  Per spec §4.1 it "appends one registration entry per
requested channel into the domain's table"; the C++ declaration returns
`void`, and the only guard in the sources is the documentation comment on
`domain_regs` ("do not modify after active(), or may invalidate") — there is
no runtime check against the engine being active. -/
def EcMaster.registerPDOInDomain (m : EcMaster) (bus_alias : Nat) (position : Nat)
    (channel_indices : List Nat) (domain : Nat) : EcMaster :=
  { m with domain_info_ :=
      updateDomain m.domain_info_ domain (fun d =>
        { d with domain_regs := d.domain_regs ++
            channel_indices.map (fun c =>
              { bus_alias := bus_alias, position := position, channel := c }) }) }

/-- Number of registration entries of one domain. -/
def EcMaster.domainRegsCount (m : EcMaster) (domain : Nat) : Nat :=
  (lookupDomain m.domain_info_ domain).domain_regs.length

/-- Modelled from the spec: `EcMaster::activate` is defined in the missing
`.cpp`.  Per spec §4.1 it finalizes the domains and transitions the engine to
Active; it fails — the declared return type is `bool` — when the engine is
already active ("calling twice is an error (reports already-active)") or when
a domain has zero entries, leaving the engine unchanged. -/
def EcMaster.activate (m : EcMaster) : Bool × EcMaster :=
  if m.active_ then (false, m)
  else if m.domain_info_.any (fun d => d.2.domain_regs.isEmpty) then (false, m)
  else (true, { m with active_ := true })

/-- Modelled from the spec: the State Monitor pass (`checkMasterState`,
`checkDomainState`, `checkSlaveStates`) compares fresh state snapshots
against cached ones and prints transition messages; the model records the
cycle number at which the pass ran. -/
def EcMaster.stateMonitorPass (m : EcMaster) : EcMaster :=
  { m with state_check_log := m.state_check_log ++ [m.update_counter_] }

/-- Modelled from the spec: one iteration of the `run()` loop (spec §4.2
per-cycle algorithm).  Every Nth cycle (N = `check_state_frequency_`) the
State Monitor pass runs; the device decode/encode and the hardware
receive/queue steps do not change the engine state modelled here; the cycle
counter advances by one and the current timestamp by one period. -/
def EcMaster.cycleStep (m : EcMaster) : EcMaster :=
  let m1 := if m.update_counter_ % m.check_state_frequency_ = 0
            then m.stateMonitorPass else m
  { m1 with update_counter_ := m1.update_counter_ + 1,
            curr_t_ := m1.curr_t_ + m1.interval_ }

/-- Modelled from the spec: the `run()` loop body — the running flag is
observed at the top of each iteration, and iteration continues while it is
set.  `fuel` bounds the number of iterations so the model is executable. -/
def EcMaster.runLoop (m : EcMaster) : Nat → EcMaster
  | 0 => m
  | fuel + 1 => if m.running_ then EcMaster.runLoop m.cycleStep fuel else m

/-- Modelled from the spec: `EcMaster::run` sets the running flag and the
start timestamp, then iterates the per-cycle algorithm until `stop()` clears
the flag (here: at most `fuel` iterations). -/
def EcMaster.run (m : EcMaster) (t0 : Nat) (fuel : Nat) : EcMaster :=
  EcMaster.runLoop { m with running_ := true, start_t_ := t0, curr_t_ := t0 } fuel

/-- The state-mutating operations callable on an `SDORequest` after
construction (`isComplete`, `isUnsed`, `getIndex`, `getSubindex`, `getData`
are `const` and cannot change the object). -/
inductive SDOOp where
  | read
  | process
deriving DecidableEq, Repr

/-- Apply a sequence of `initiateRead()` / `processData()` calls. -/
def SDORequest.applyOps (r : SDORequest) (ops : List SDOOp) : SDORequest :=
  ops.foldl (fun acc op =>
    match op with
    | SDOOp.read => acc.initiateRead
    | SDOOp.process => acc.processData) r

/-- A slave configuration whose request allocation succeeds, backed by the
transport bytes 0x2C 0x01. -/
def scOk : EcSlaveConfig :=
  { can_create := true, buffer := [0x2C, 0x01] }

/-- A slave configuration whose request allocation fails (NULL handle). -/
def scFail : EcSlaveConfig :=
  { can_create := false, buffer := [] }

/-- The request object the allocation from `scOk` yields. -/
def reqDemo : EcSdoRequest :=
  { state := EcRequestState.unused, data := [0x2C, 0x01] }

/-- The `SDORequest` constructed from `scOk` at object index 0x1000. -/
def rOk : SDORequest :=
  { request_ := reqDemo, size_ := 2, index_ := 0x1000, subindex_ := 0,
    slave_ := {} }

/-- A request whose transaction has completed with SUCCESS, its buffer
holding the bytes 0x2C 0x01. -/
def rSuccess : SDORequest :=
  { request_ := { state := EcRequestState.success, data := [0x2C, 0x01] },
    size_ := 2, index_ := 0x1000, subindex_ := 0, slave_ := {} }

/-- A fresh engine with the running flag raised, as at entry of the `run()`
loop. -/
def mRun : EcMaster :=
  { EcMaster.init with running_ := true }

/-- A fresh engine with one channel of slave (0, 1) registered in domain 0. -/
def mRegistered : EcMaster :=
  EcMaster.init.registerPDOInDomain 0 1 [0] 0

/-- The engine `mRegistered` after a successful `activate()`. -/
def mActive : EcMaster :=
  mRegistered.activate.2

/-! Helper lemmas shared by the claim theorems. -/

/-- A successful construction pins down every field of the request: the
handle is the freshly created UNUSED request backed by the config's buffer,
and size/index/subindex/slave are the constructor arguments. -/
theorem make_ok_iff (sc : EcSlaveConfig) (i si sz : Nat) (sl : EcSlave)
    (r : SDORequest) :
    SDORequest.make sc i si sz sl = Except.ok r ↔
      (sc.can_create = true ∧
        r = { request_ := { state := EcRequestState.unused, data := sc.buffer },
              size_ := sz, index_ := i, subindex_ := si, slave_ := sl }) := by
  unfold SDORequest.make ecrt_slave_config_create_sdo_request
  cases hc : sc.can_create <;> simp [hc, eq_comm]

/-- The first two bytes alone determine the decoded 16-bit value. -/
theorem readU16le_take_two (l : List Nat) :
    readU16le (l.take 2) = readU16le l := by
  match l with
  | [] => rfl
  | [_] => rfl
  | _ :: _ :: _ => rfl

/-- The decoded value fits in 16 bits. -/
theorem readU16le_lt (l : List Nat) : readU16le l < 2 ^ 16 := by
  have h0 : l.getD 0 0 % 256 < 256 := Nat.mod_lt _ (by decide)
  have h1 : l.getD 1 0 % 256 < 256 := Nat.mod_lt _ (by decide)
  unfold readU16le
  omega

/-- `initiateRead` and `processData` never touch `index_` or `subindex_`. -/
theorem applyOps_preserves_ids (ops : List SDOOp) (r : SDORequest) :
    (r.applyOps ops).index_ = r.index_ ∧
      (r.applyOps ops).subindex_ = r.subindex_ := by
  induction ops generalizing r with
  | nil => exact ⟨rfl, rfl⟩
  | cons op rest ih =>
      cases op <;>
        simpa [SDORequest.applyOps, SDORequest.initiateRead,
               SDORequest.processData, EcSlave.processSDO] using ih _

/-! C1 -/

/-- C1: a mailbox request that has never been armed via `initiateRead()`
reports `isUnsed() = true` and `isComplete() = false`; the `isUnsed`
predicate tests exactly the UNUSED state of the underlying request (not a
busy/success check). -/
theorem C1_never_armed_reports_unused (sc : EcSlaveConfig) (i si sz : Nat)
    (sl : EcSlave) (r q : SDORequest)
    (h : SDORequest.make sc i si sz sl = Except.ok r) :
    r.isUnsed = true ∧ r.isComplete = false ∧
      (q.isUnsed = true ↔
        ecrt_sdo_request_state q.request_ = EcRequestState.unused) := by
  obtain ⟨-, rfl⟩ := (make_ok_iff sc i si sz sl r).mp h
  refine ⟨rfl, rfl, ?_⟩
  simp [SDORequest.isUnsed]

/-- C1 witness: evaluated on the concrete configuration `scOk`. -/
theorem C1_witness :
    rOk.isUnsed = true ∧ rOk.isComplete = false ∧
      (rOk.isUnsed = true ↔
        ecrt_sdo_request_state rOk.request_ = EcRequestState.unused) :=
  C1_never_armed_reports_unused scOk 0x1000 0 2 {} rOk rOk rfl

/-! C2 -/

/-- C2: for a request in the SUCCESS state, `processData()` decodes a
fixed-width 2-byte unsigned integer little-endian out of the transport
buffer and delivers it to the owning slave's handler keyed by the request's
object index; the bytes 0x2C 0x01 decode to 300. -/
theorem C2_processData_delivers (r : SDORequest)
    (h : ecrt_sdo_request_state r.request_ = EcRequestState.success) :
    r.processData.slave_.receivedSDO
        = r.slave_.receivedSDO ++
            [(r.index_, readU16le (ecrt_sdo_request_data r.request_))] ∧
      readU16le [0x2C, 0x01] = 300 :=
  ⟨rfl, by decide⟩

/-- C2 witness: the concrete completed request `rSuccess` delivers
(0x1000, 300). -/
theorem C2_witness :
    rSuccess.processData.slave_.receivedSDO
        = rSuccess.slave_.receivedSDO ++
            [(rSuccess.index_, readU16le (ecrt_sdo_request_data rSuccess.request_))] ∧
      readU16le [0x2C, 0x01] = 300 :=
  C2_processData_delivers rSuccess rfl

/-! C8 -/

/-- C8: when the transaction layer fails to create the request object (NULL
handle), the `SDORequest` constructor throws
`runtime_error("Failed to create SDO request")`; when creation succeeds,
construction completes without throwing and the stored handle is the (non
null) created request. -/
theorem C8_constructor_null_check (sc sc2 : EcSlaveConfig) (i si sz : Nat)
    (sl : EcSlave) (req : EcSdoRequest) :
    (ecrt_slave_config_create_sdo_request sc i si sz = none →
        SDORequest.make sc i si sz sl
          = Except.error "Failed to create SDO request") ∧
    (ecrt_slave_config_create_sdo_request sc2 i si sz = some req →
        SDORequest.make sc2 i si sz sl
          = Except.ok { request_ := req, size_ := sz, index_ := i,
                        subindex_ := si, slave_ := sl }) := by
  constructor <;> intro h <;> simp [SDORequest.make, h]

/-- C8 witness: `scFail` yields the thrown error, `scOk` a constructed
request holding the created handle. -/
theorem C8_witness :
    SDORequest.make scFail 0x1000 0 2 {}
        = Except.error "Failed to create SDO request" ∧
      SDORequest.make scOk 0x1000 0 2 {} = Except.ok rOk :=
  ⟨(C8_constructor_null_check scFail scOk 0x1000 0 2 {} reqDemo).1 rfl,
   (C8_constructor_null_check scFail scOk 0x1000 0 2 {} reqDemo).2 rfl⟩

/-! C9 -/

/-- C9: `processData()` always copies exactly `sizeof(uint16_t)` = 2 bytes
from the transport buffer — the delivered value is determined by the first
two bytes and fits in 16 bits — and the stored `size_` field never
influences the delivered result. -/
theorem C9_size_field_ignored (r : SDORequest) (size2 : Nat) :
    ({ r with size_ := size2 } : SDORequest).processData.slave_
        = r.processData.slave_ ∧
      r.processData.slave_.receivedSDO
        = r.slave_.receivedSDO ++
            [(r.index_, readU16le ((ecrt_sdo_request_data r.request_).take 2))] ∧
      readU16le (ecrt_sdo_request_data r.request_) < 2 ^ 16 :=
  ⟨rfl, by rw [readU16le_take_two]; rfl, readU16le_lt _⟩

/-! C10 -/

/-- C10: a freshly constructed engine is not running and reports zero
elapsed cycles; `getIndex()` / `getSubindex()` of a constructed request
return exactly the index and subindex given at construction, unchanged by
any sequence of `initiateRead()` / `processData()` calls (the remaining
methods are `const`). -/
theorem C10_fresh_state_and_stable_ids (sc : EcSlaveConfig) (i si sz : Nat)
    (sl : EcSlave) (r : SDORequest) (ops : List SDOOp)
    (h : SDORequest.make sc i si sz sl = Except.ok r) :
    EcMaster.init.running_ = false ∧ EcMaster.init.elapsedCycles = 0 ∧
      (r.applyOps ops).getIndex = i ∧ (r.applyOps ops).getSubindex = si := by
  obtain ⟨-, rfl⟩ := (make_ok_iff sc i si sz sl r).mp h
  obtain ⟨h1, h2⟩ := applyOps_preserves_ids ops
    { request_ := { state := EcRequestState.unused, data := sc.buffer },
      size_ := sz, index_ := i, subindex_ := si, slave_ := sl }
  exact ⟨rfl, rfl, h1, h2⟩

/-- C10 witness: the concrete request `rOk` after arming and processing. -/
theorem C10_witness :
    EcMaster.init.running_ = false ∧ EcMaster.init.elapsedCycles = 0 ∧
      (rOk.applyOps [SDOOp.read, SDOOp.process]).getIndex = 0x1000 ∧
      (rOk.applyOps [SDOOp.read, SDOOp.process]).getSubindex = 0 :=
  C10_fresh_state_and_stable_ids scOk 0x1000 0 2 {} rOk
    [SDOOp.read, SDOOp.process] rfl

/-! Engine lemmas for the cyclic-loop claims. -/

/-- One loop iteration advances the cycle counter by exactly one. -/
theorem cycleStep_update_counter (m : EcMaster) :
    m.cycleStep.update_counter_ = m.update_counter_ + 1 := by
  by_cases h : m.update_counter_ % m.check_state_frequency_ = 0 <;>
    simp [EcMaster.cycleStep, EcMaster.stateMonitorPass, h]

/-- One loop iteration leaves the running flag alone (only `stop()` clears
it). -/
theorem cycleStep_running (m : EcMaster) :
    m.cycleStep.running_ = m.running_ := by
  by_cases h : m.update_counter_ % m.check_state_frequency_ = 0 <;>
    simp [EcMaster.cycleStep, EcMaster.stateMonitorPass, h]

/-- One loop iteration leaves the state-check interval alone. -/
theorem cycleStep_check_freq (m : EcMaster) :
    m.cycleStep.check_state_frequency_ = m.check_state_frequency_ := by
  by_cases h : m.update_counter_ % m.check_state_frequency_ = 0 <;>
    simp [EcMaster.cycleStep, EcMaster.stateMonitorPass, h]

/-- The State Monitor pass runs in an iteration exactly when the cycle
number is a multiple of the check interval. -/
theorem cycleStep_log (m : EcMaster) :
    m.cycleStep.state_check_log
      = m.state_check_log ++
          (if m.update_counter_ % m.check_state_frequency_ = 0
            then [m.update_counter_] else []) := by
  by_cases h : m.update_counter_ % m.check_state_frequency_ = 0 <;>
    simp [EcMaster.cycleStep, EcMaster.stateMonitorPass, h]

/-- With the running flag down, the loop exits immediately leaving the
engine untouched. -/
theorem runLoop_not_running (m : EcMaster) (n : Nat)
    (h : m.running_ = false) : m.runLoop n = m := by
  cases n <;> simp [EcMaster.runLoop, h]

/-- While the running flag stays up, `n` loop iterations advance the cycle
counter by exactly `n`. -/
theorem runLoop_counter_of_running (m : EcMaster) (n : Nat)
    (h : m.running_ = true) :
    (m.runLoop n).update_counter_ = m.update_counter_ + n := by
  induction n generalizing m with
  | zero => simp [EcMaster.runLoop]
  | succ k ih =>
      rw [show m.runLoop (k + 1)
            = if m.running_ then m.cycleStep.runLoop k else m from rfl, h]
      simp only [if_true]
      rw [ih m.cycleStep (by rw [cycleStep_running, h]),
          cycleStep_update_counter]
      omega

/-- The cycle counter never decreases across the loop. -/
theorem runLoop_counter_mono (m : EcMaster) (n : Nat) :
    m.update_counter_ ≤ (m.runLoop n).update_counter_ := by
  induction n generalizing m with
  | zero => simp [EcMaster.runLoop]
  | succ k ih =>
      rw [show m.runLoop (k + 1)
            = if m.running_ then m.cycleStep.runLoop k else m from rfl]
      by_cases h : m.running_ = true
      · rw [h]
        simp only [if_true]
        have h1 := ih m.cycleStep
        rw [cycleStep_update_counter] at h1
        omega
      · rw [show m.running_ = false by revert h; cases m.running_ <;> simp]
        simp

/-- `activate()` never touches the cycle counter. -/
theorem activate_update_counter (m : EcMaster) :
    m.activate.2.update_counter_ = m.update_counter_ := by
  unfold EcMaster.activate
  split
  · rfl
  · split <;> rfl

/-- While the running flag stays up, the state-check log grows by exactly
the cycle numbers in the executed range that are multiples of the check
interval. -/
theorem runLoop_log (m : EcMaster) (n : Nat) (h : m.running_ = true) :
    (m.runLoop n).state_check_log
      = m.state_check_log ++
          (List.range' m.update_counter_ n).filter
            (fun c => decide (c % m.check_state_frequency_ = 0)) := by
  induction n generalizing m with
  | zero => simp [EcMaster.runLoop]
  | succ k ih =>
      rw [show m.runLoop (k + 1)
            = if m.running_ then m.cycleStep.runLoop k else m from rfl, h]
      simp only [if_true]
      rw [ih m.cycleStep (by rw [cycleStep_running, h]), cycleStep_log,
          cycleStep_update_counter, cycleStep_check_freq, List.range'_succ,
          List.filter_cons, List.append_assoc]
      by_cases hc : m.update_counter_ % m.check_state_frequency_ = 0 <;>
        simp [hc]

/-- Updating a domain of the map changes exactly that domain's info. -/
theorem lookupDomain_updateDomain (ds : List (Nat × DomainInfo)) (idx : Nat)
    (f : DomainInfo → DomainInfo) :
    lookupDomain (updateDomain ds idx f) idx = f (lookupDomain ds idx) := by
  induction ds with
  | nil => simp [lookupDomain, updateDomain]
  | cons kd rest ih =>
      obtain ⟨k, d⟩ := kd
      by_cases hk : k = idx <;> simp [lookupDomain, updateDomain, hk, ih]

/-! C3 -/

/-- C3 counterexample: on the concrete activated engine `mActive`,
domain/channel registration is not rejected — `registerPDOInDomain` (whose
C++ declaration returns `void`, so there is no error channel) silently
appends a new entry to the previously resolved registration table. -/
theorem C3_counterexample :
    mActive.active_ = true ∧
      (mActive.registerPDOInDomain 0 2 [0] 0).domainRegsCount 0
        = mActive.domainRegsCount 0 + 1 := by
  decide

/-- C3 amended: a second `activate()` on an already-active engine is
rejected (returns false, reporting already-active, and leaves the engine
unchanged); but `registerPDOInDomain` after `activate()` is not
runtime-checked — it silently appends its entries to the registration table,
guarded only by the source comment "do not modify after active(), or may
invalidate". -/
theorem C3_activate_twice_rejected (m : EcMaster) (a p d : Nat)
    (cs : List Nat) (h : m.active_ = true) :
    m.activate.1 = false ∧ m.activate.2 = m ∧
      (m.registerPDOInDomain a p cs d).domainRegsCount d
        = m.domainRegsCount d + cs.length := by
  refine ⟨?_, ?_, ?_⟩
  · simp [EcMaster.activate, h]
  · simp [EcMaster.activate, h]
  · simp [EcMaster.registerPDOInDomain, EcMaster.domainRegsCount,
          lookupDomain_updateDomain]

/-- C3 witness: the amended behaviour evaluated on the concrete activated
engine `mActive`. -/
theorem C3_witness :
    mActive.activate.1 = false ∧ mActive.activate.2 = mActive ∧
      (mActive.registerPDOInDomain 0 2 [0] 0).domainRegsCount 0
        = mActive.domainRegsCount 0 + 1 :=
  C3_activate_twice_rejected mActive 0 2 0 [0] (by decide)

/-! C4 -/

/-- At 3 Hz the stored `uint32_t` interval is the truncated quotient. -/
theorem interval_at_three_hz :
    (EcMaster.init.setCtrlFrequency 3).getInterval = 333333333 := by
  have hfl : Int.floor ((1000000000 : ℚ) / 3) = 333333333 := by
    rw [Int.floor_eq_iff] <;> norm_num
  simp [EcMaster.setCtrlFrequency, EcMaster.getInterval, hfl]

/-- C4 counterexample: at 3 Hz the stored interval is the truncated
333333333 ns, while the exact period 10^9 / 3 ns is not an integer, so
`getInterval()` does not equal 1e9 / f there. -/
theorem C4_counterexample :
    (EcMaster.init.setCtrlFrequency 3).getInterval = 333333333 ∧
      ¬ (((EcMaster.init.setCtrlFrequency 3).getInterval : ℚ)
          = 1000000000 / 3) := by
  refine ⟨interval_at_three_hz, ?_⟩
  intro h
  rw [interval_at_three_hz] at h
  norm_num at h

/-- C4 amended: after `setCtrlFrequency(f)` with `f > 0` and a period that
fits in `uint32_t`, `getInterval()` returns the period `1e9 / f` truncated
to an integer number of nanoseconds: it is at most the exact period and
within one nanosecond below it (equal exactly when `f` divides 1e9). -/
theorem C4_interval_truncates_period (m : EcMaster) (f : ℚ) (hf : 0 < f)
    (hfit : (1000000000 : ℚ) / f < 2 ^ 32) :
    ((m.setCtrlFrequency f).getInterval : ℚ) ≤ 1000000000 / f ∧
      (1000000000 : ℚ) / f - 1 < ((m.setCtrlFrequency f).getInterval : ℚ) := by
  have hq0 : (0 : ℚ) ≤ 1000000000 / f := by positivity
  have hz0 : 0 ≤ Int.floor ((1000000000 : ℚ) / f) := Int.floor_nonneg.mpr hq0
  have hzlt : Int.floor ((1000000000 : ℚ) / f) < 2 ^ 32 := by
    have h1 : ((Int.floor ((1000000000 : ℚ) / f) : ℤ) : ℚ)
        ≤ 1000000000 / f := Int.floor_le _
    have h2 : ((Int.floor ((1000000000 : ℚ) / f) : ℤ) : ℚ) < 2 ^ 32 :=
      lt_of_le_of_lt h1 hfit
    exact_mod_cast h2
  have htn : (Int.floor ((1000000000 : ℚ) / f)).toNat < 4294967296 := by
    omega
  have hint : (m.setCtrlFrequency f).getInterval
      = (Int.floor ((1000000000 : ℚ) / f)).toNat := by
    show (Int.floor ((1000000000 : ℚ) / f)).toNat % 2 ^ 32
        = (Int.floor ((1000000000 : ℚ) / f)).toNat
    exact Nat.mod_eq_of_lt htn
  have hcast : (((m.setCtrlFrequency f).getInterval : ℕ) : ℚ)
      = ((Int.floor ((1000000000 : ℚ) / f) : ℤ) : ℚ) := by
    rw [hint]
    exact_mod_cast congrArg (fun z : ℤ => (z : ℚ))
      (Int.toNat_of_nonneg hz0)
  constructor
  · rw [hcast]
    exact Int.floor_le _
  · rw [hcast]
    exact Int.sub_one_lt_floor _

/-- C4 witness: the amended bound evaluated at 3 Hz. -/
theorem C4_witness :
    ((EcMaster.init.setCtrlFrequency 3).getInterval : ℚ) ≤ 1000000000 / 3 ∧
      (1000000000 : ℚ) / 3 - 1
        < ((EcMaster.init.setCtrlFrequency 3).getInterval : ℚ) :=
  C4_interval_truncates_period EcMaster.init 3 (by norm_num) (by norm_num)

/-! C5 -/

/-- C5: the cycle counter advances by exactly one per completed loop
iteration, never decreases across the loop, is frozen once `stop()` is
called, is left untouched by `stop()` / `activate()` /
`registerPDOInDomain()` / `setCtrlFrequency()`, and is zero only by
(re)construction of the engine. -/
theorem C5_counter_monotone (m : EcMaster) (n a p d : Nat) (cs : List Nat)
    (f : ℚ) :
    m.cycleStep.elapsedCycles = m.elapsedCycles + 1 ∧
      m.elapsedCycles ≤ (m.runLoop n).elapsedCycles ∧
      (m.running_ = true →
        (m.runLoop n).elapsedCycles = m.elapsedCycles + n) ∧
      (m.stop.runLoop n).elapsedCycles = m.elapsedCycles ∧
      m.stop.elapsedCycles = m.elapsedCycles ∧
      m.activate.2.elapsedCycles = m.elapsedCycles ∧
      (m.registerPDOInDomain a p cs d).elapsedCycles = m.elapsedCycles ∧
      (m.setCtrlFrequency f).elapsedCycles = m.elapsedCycles ∧
      EcMaster.init.elapsedCycles = 0 := by
  refine ⟨cycleStep_update_counter m, runLoop_counter_mono m n,
          fun h => runLoop_counter_of_running m n h, ?_, rfl, ?_, rfl, rfl, rfl⟩
  · rw [runLoop_not_running _ _ rfl]
    rfl
  · exact activate_update_counter m

/-- C5 witness: evaluated on the running engine `mRun` over five
iterations. -/
theorem C5_witness :
    mRun.cycleStep.elapsedCycles = mRun.elapsedCycles + 1 ∧
      mRun.elapsedCycles ≤ (mRun.runLoop 5).elapsedCycles ∧
      (mRun.runLoop 5).elapsedCycles = mRun.elapsedCycles + 5 ∧
      (mRun.stop.runLoop 5).elapsedCycles = mRun.elapsedCycles ∧
      EcMaster.init.elapsedCycles = 0 := by
  obtain ⟨h1, h2, h3, h4, -, -, -, -, h9⟩ :=
    C5_counter_monotone mRun 5 0 1 0 [0] 3
  exact ⟨h1, h2, h3 rfl, h4, h9⟩

/-! C6 -/

/-- C6: `stop()` only clears the running flag — every other field of the
engine (cycle counter, timestamps, pending SDO requests, domain tables,
slave records, check interval, period, activation flag, check log) is left
unchanged — and once stopped, no further loop iteration runs, so
`elapsedTime()` and `elapsedCycles()` keep their last values. -/
theorem C6_stop_only_clears_flag (m : EcMaster) (n : Nat) :
    m.stop.running_ = false ∧
      m.stop.update_counter_ = m.update_counter_ ∧
      m.stop.start_t_ = m.start_t_ ∧
      m.stop.curr_t_ = m.curr_t_ ∧
      m.stop.sdo_requests_ = m.sdo_requests_ ∧
      m.stop.domain_info_ = m.domain_info_ ∧
      m.stop.slave_info_ = m.slave_info_ ∧
      m.stop.check_state_frequency_ = m.check_state_frequency_ ∧
      m.stop.interval_ = m.interval_ ∧
      m.stop.active_ = m.active_ ∧
      m.stop.state_check_log = m.state_check_log ∧
      (m.stop.runLoop n).elapsedTime = m.stop.elapsedTime ∧
      (m.stop.runLoop n).elapsedCycles = m.stop.elapsedCycles := by
  refine ⟨rfl, rfl, rfl, rfl, rfl, rfl, rfl, rfl, rfl, rfl, rfl, ?_, ?_⟩ <;>
    rw [runLoop_not_running _ _ rfl]

/-! C7 -/

/-- C7: during the run loop, the State Monitor pass executes exactly on
cycle numbers that are multiples of the configured check interval and never
on any other cycle; the default interval of a fresh engine is 10. -/
theorem C7_checks_on_multiples (m : EcMaster) (n c : Nat)
    (h : m.running_ = true) :
    (c ∈ (m.runLoop n).state_check_log ↔
        c ∈ m.state_check_log ∨
          (m.update_counter_ ≤ c ∧ c < m.update_counter_ + n ∧
            c % m.check_state_frequency_ = 0)) ∧
      EcMaster.init.check_state_frequency_ = 10 := by
  refine ⟨?_, rfl⟩
  rw [runLoop_log m n h]
  simp only [List.mem_append, List.mem_filter, List.mem_range'_1,
             decide_eq_true_eq]
  tauto

/-- C7 witness: over 25 cycles of the fresh running engine `mRun`, cycle 20
is checked (a multiple of 10). -/
theorem C7_witness :
    (20 ∈ (mRun.runLoop 25).state_check_log ↔
        20 ∈ mRun.state_check_log ∨
          (mRun.update_counter_ ≤ 20 ∧ 20 < mRun.update_counter_ + 25 ∧
            20 % mRun.check_state_frequency_ = 0)) ∧
      EcMaster.init.check_state_frequency_ = 10 :=
  C7_checks_on_multiples mRun 25 20 rfl

end EthercatInterface
